import Mathlib

/-!  Verification of the SLA deadline monitor and notification-derivation
engine of the FinOps dashboard.  The development shallowly embeds:

* the SQL function check_subtask_sla_notifications together with the
  auto-sync insertion loop of the notifications-production router,
* the FinOpsAlertService.checkSubtaskSLA evaluator,
* the type/priority CASE classifier of the GET route,
* the live countdown recomputation of transformDbNotifications, and
* the mock fallback of the GET route when the database is unavailable.

Times are rational numbers of minutes (sub-minute precision preserved);
the embedding keeps the exact comparison operators, rounding modes and
string formats of the source. -/

/-- A row of finops_subtasks joined with its finops_tasks parent: exactly
the fields consulted by the two SLA evaluators.  startTime is the
scheduled start (minutes, NULL allowed), slaMinutes is
sla_hours * 60 + sla_minutes, startedAt mirrors started_at, taskActive
mirrors ft.is_active of the joined parent row. -/
structure Subtask where
  taskId : Int
  subId : Int
  startTime : Option ℚ
  autoNotify : Bool
  status : String
  taskActive : Bool
  slaMinutes : ℚ
  startedAt : Option ℚ
deriving Repr, DecidableEq

/-- A row of finops_activity_log. -/
structure LogEvent where
  action : String
  taskId : Int
  subId : Int
  details : String
  timestamp : ℚ
deriving Repr, DecidableEq

/-- fs.status IN (pending, in_progress): the lifecycle filter shared by both
evaluators. -/
def slaStatusOk (fs : Subtask) : Bool :=
  fs.status == "pending" || fs.status == "in_progress"

/-- The WHERE clause of the sla_warning branch of
check_subtask_sla_notifications: start_time present, auto_notify, status
pending or in_progress, parent active, and start_time strictly inside the
next 15 minutes. -/
def slaWarningDue (now : ℚ) (fs : Subtask) : Bool :=
  match fs.startTime with
  | none => false
  | some t =>
      fs.autoNotify && slaStatusOk fs && fs.taskActive &&
        decide (now < t) && decide (t ≤ now + 15)

/-- The WHERE clause of the sla_overdue branch of
check_subtask_sla_notifications: same filters, start_time more than
15 minutes in the past. -/
def slaOverdueDue (now : ℚ) (fs : Subtask) : Bool :=
  match fs.startTime with
  | none => false
  | some t =>
      fs.autoNotify && slaStatusOk fs && fs.taskActive &&
        decide (t < now - 15)

/-- Postgres ROUND on numeric: nearest integer, ties away from zero. -/
def roundQ (q : ℚ) : ℤ :=
  if 0 ≤ q then ⌊q + 1 / 2⌋ else -⌊-q + 1 / 2⌋

/-- Matches one activity-log row against a unit and an action tag, as in the
NOT EXISTS dedup subqueries. -/
def matchesUnitAction (tid sid : Int) (act : String) (e : LogEvent) : Bool :=
  e.taskId == tid && e.subId == sid && e.action == act

/-- The NOT EXISTS dedup subquery of check_subtask_sla_notifications: an
event for the same unit with the given action created strictly inside the
last hour. -/
def hasRecentEvent (log : List LogEvent) (now : ℚ) (tid sid : Int)
    (act : String) : Bool :=
  log.any fun e => matchesUnitAction tid sid act e && decide (now - 60 < e.timestamp)

/-- The sla_warning message format of check_subtask_sla_notifications. -/
def warningMessage (now t : ℚ) : String :=
  "SLA Warning - " ++ toString (roundQ (t - now)) ++ " min remaining • need to start"

/-- The sla_overdue message format of check_subtask_sla_notifications; both
placeholders receive the same rounded difference. -/
def overdueMessage (now t : ℚ) : String :=
  "Overdue by " ++ toString (roundQ (now - t)) ++ " min • " ++
    toString (roundQ (now - t)) ++ " min ago"

/-- The activity-log row the auto-sync loop inserts for a returned
sla_warning notification (action tag sla_alert). -/
def mkWarningEvent (now : ℚ) (fs : Subtask) : LogEvent :=
  { action := "sla_alert", taskId := fs.taskId, subId := fs.subId,
    details := warningMessage now (fs.startTime.getD 0), timestamp := now }

/-- The activity-log row the auto-sync loop inserts for a returned
sla_overdue notification (action tag overdue_notification_sent). -/
def mkOverdueEvent (now : ℚ) (fs : Subtask) : LogEvent :=
  { action := "overdue_notification_sent", taskId := fs.taskId, subId := fs.subId,
    details := overdueMessage now (fs.startTime.getD 0), timestamp := now }

/-- One evaluator pass: the rows check_subtask_sla_notifications returns
against the current log, mapped to the activity-log rows that the
auto-sync loop inserts.  Both branches are evaluated against the same
snapshot of the log, exactly as the SQL function does. -/
def slaEvalPass (now : ℚ) (log : List LogEvent) (subs : List Subtask) :
    List LogEvent :=
  ((subs.filter fun fs =>
      slaWarningDue now fs &&
        !hasRecentEvent log now fs.taskId fs.subId "sla_alert").map
    (mkWarningEvent now)) ++
  ((subs.filter fun fs =>
      slaOverdueDue now fs &&
        !hasRecentEvent log now fs.taskId fs.subId "overdue_notification_sent").map
    (mkOverdueEvent now))

/-- POST /auto-sync: run one pass and append every created row to the
activity log. -/
def autoSync (now : ℚ) (log : List LogEvent) (subs : List Subtask) :
    List LogEvent :=
  log ++ slaEvalPass now log subs

/-- An activity-log row is a Warning event of the given unit. -/
def isWarningFor (fs : Subtask) (e : LogEvent) : Bool :=
  matchesUnitAction fs.taskId fs.subId "sla_alert" e

/-- An activity-log row is an Overdue event of the given unit. -/
def isOverdueFor (fs : Subtask) (e : LogEvent) : Bool :=
  matchesUnitAction fs.taskId fs.subId "overdue_notification_sent" e

/-- Number of Warning events of a unit inside the one-hour dedup lookback
window ending at now. -/
def warningsInWindow (log : List LogEvent) (now : ℚ) (fs : Subtask) : Nat :=
  (log.filter fun e => isWarningFor fs e && decide (now - 60 < e.timestamp)).length

/-- Some emitted row is an Overdue event of the unit. -/
def emitsOverdueFor (events : List LogEvent) (fs : Subtask) : Bool :=
  events.any (isOverdueFor fs)

/-- Some emitted row is a Warning event of the unit. -/
def emitsWarningFor (events : List LogEvent) (fs : Subtask) : Bool :=
  events.any (isWarningFor fs)

/-- The Overdue phase exactly as the spec words it: deadline is
scheduled_start + sla_budget and the phase holds iff remaining is at
most zero.  Stated for comparison with the code-derived slaOverdueDue. -/
def specOverduePhase (now : ℚ) (fs : Subtask) : Bool :=
  match fs.startTime with
  | none => false
  | some t => decide (t + fs.slaMinutes - now ≤ 0)

/-- The Warning phase exactly as the spec words it: the phase holds iff
zero < deadline - now and deadline - now is at most 15 minutes.  Stated
for comparison with the code-derived slaWarningDue. -/
def specWarningPhase (now : ℚ) (fs : Subtask) : Bool :=
  match fs.startTime with
  | none => false
  | some t =>
      decide (0 < t + fs.slaMinutes - now) && decide (t + fs.slaMinutes - now ≤ 15)

/-- FinOpsAlertService.checkSubtaskSLA: the due time is started_at (or now
when the subtask has not started) plus the SLA budget. -/
def svcDueTime (now : ℚ) (fs : Subtask) : ℚ :=
  (match fs.startedAt with | some s => s | none => now) + fs.slaMinutes

/-- FinOpsAlertService.checkSubtaskSLA: minutesRemaining is the floor of
the millisecond difference scaled to minutes. -/
def svcMinutesRemaining (now : ℚ) (fs : Subtask) : ℤ :=
  ⌊svcDueTime now fs - now⌋

/-- The overdue branch of FinOpsAlertService.checkSubtaskSLA (guarded by
the pending/in_progress filter of processTaskAlerts and the active-task
query). -/
def svcOverdueDue (now : ℚ) (fs : Subtask) : Bool :=
  slaStatusOk fs && fs.taskActive && decide (svcMinutesRemaining now fs < 0)

/-- The warning branch of FinOpsAlertService.checkSubtaskSLA: reached only
when the overdue branch did not fire, with remaining between 1 and 15
whole minutes. -/
def svcWarningDue (now : ℚ) (fs : Subtask) : Bool :=
  slaStatusOk fs && fs.taskActive && !decide (svcMinutesRemaining now fs < 0) &&
    decide (svcMinutesRemaining now fs ≤ 15) &&
    decide (0 < svcMinutesRemaining now fs)

/-- What transformDbNotifications displays for a stored Warning record. -/
inductive LiveWarnDisplay where
  | promoted (overdueMinutes minutesAgo : ℤ)
  | remaining (currentRemaining : ℤ)
deriving Repr, DecidableEq

/-- The warning branch of transformDbNotifications: orig is the minute
count parsed out of the stored detail text, createdAt and now are clock
readings in minutes.  The exact remaining value keeps sub-minute
precision; the displayed remaining count is the ceiling clamped at zero;
an expired warning is promoted for display with floored absolute overdue
minutes and floored elapsed minutes. -/
def liveWarnRecompute (orig : ℕ) (createdAt now : ℚ) : LiveWarnDisplay :=
  let exact : ℚ := (orig : ℚ) - (now - createdAt)
  if exact ≤ 0 then .promoted ⌊|exact|⌋ ⌊now - createdAt⌋
  else .remaining (max 0 ⌈exact⌉)

/-- The overdue branch of transformDbNotifications: the displayed overdue
count adds the floored elapsed minutes to the stored count, and the
displayed age is the floored elapsed minutes plus two. -/
def liveOverdueRecompute (orig : ℕ) (createdAt now : ℚ) : ℤ × ℤ :=
  ((orig : ℤ) + ⌊now - createdAt⌋, ⌊now - createdAt⌋ + 2)

/-- The replacement detail text produced by the overdue branch. -/
def liveOverdueText (orig : ℕ) (createdAt now : ℚ) : String :=
  "Overdue by " ++ toString (liveOverdueRecompute orig createdAt now).1 ++
    " min • " ++ toString (liveOverdueRecompute orig createdAt now).2 ++ " min ago"

/-- Structural substring search over character lists (kernel-computable
stand-in for the SQL LIKE operator). -/
def subSearch (pat : List Char) : List Char → Bool
  | [] => pat.isPrefixOf []
  | c :: cs => pat.isPrefixOf (c :: cs) || subSearch pat cs

/-- LOWER(details) LIKE the given all-lowercase pattern. -/
def detailHas (details pat : String) : Bool :=
  subSearch pat.data (details.data.map Char.toLower)

/-- The type CASE of the GET route of notifications-production: every
action-tag arm precedes every detail-substring arm, first match wins. -/
def classifyType (action details : String) : String :=
  if action == "delay_reported" then "task_delayed"
  else if action == "overdue_notification_sent" then "sla_overdue"
  else if action == "completion_notification_sent" then "task_completed"
  else if action == "sla_alert" then "sla_warning"
  else if action == "escalation_required" then "escalation"
  else if detailHas details "overdue" then "sla_overdue"
  else if (action == "status_changed" || action == "task_status_changed") &&
      detailHas details "overdue" then "sla_overdue"
  else if (action == "status_changed" || action == "task_status_changed") &&
      detailHas details "completed" then "task_completed"
  else if detailHas details "starting in" || detailHas details "sla warning" then
    "sla_warning"
  else if detailHas details "min remaining" then "sla_warning"
  else if detailHas details "pending" && detailHas details "need to start" then
    "task_pending"
  else if detailHas details "pending status" then "task_pending"
  else "daily_reminder"

/-- The priority CASE of the GET route of notifications-production. -/
def classifyPriority (action details : String) : String :=
  if action == "delay_reported" || action == "overdue_notification_sent" ||
      detailHas details "overdue" then "critical"
  else if action == "completion_notification_sent" then "low"
  else if action == "sla_alert" || detailHas details "starting in" ||
      detailHas details "sla warning" || detailHas details "min remaining" then
    "high"
  else if action == "escalation_required" then "critical"
  else if detailHas details "pending" && detailHas details "need to start" then
    "medium"
  else if detailHas details "pending status" then "medium"
  else "medium"

/-- The fields of a transformed notification consulted by the
NotificationCenter members block. -/
structure NotificationView where
  ntype : String
  escalationManagers : List String
  membersList : List String
deriving Repr, DecidableEq

/-- The render guard of the escalation-managers block in the Footer
notification list: the members block renders only for a nonempty members
list, and inside it the escalation managers render only for derived type
sla_overdue with a nonempty manager list. -/
def showsEscalationManagers (n : NotificationView) : Bool :=
  !n.membersList.isEmpty &&
    (n.ntype == "sla_overdue" && !n.escalationManagers.isEmpty)

/-- One mock notification of the GET route fallback (fields consulted by
its filters). -/
structure MockNotification where
  id : String
  ntype : String
  userId : Int
  priority : String
  read : Bool
deriving Repr, DecidableEq

/-- The three canned mock notifications of notifications-production. -/
def mockNotifications : List MockNotification :=
  [{ id := "1", ntype := "overdue", userId := 1, priority := "high", read := false },
   { id := "2", ntype := "followup", userId := 1, priority := "medium", read := false },
   { id := "3", ntype := "completed", userId := 1, priority := "low", read := true }]

/-- Query parameters of GET /notifications. -/
structure NotificationQuery where
  userId : Option Int
  qtype : Option String
  readFilter : Option Bool
  limit : Nat
  offset : Nat

/-- The response body fields of GET /notifications. -/
structure NotificationPage where
  notifications : List MockNotification
  total : Nat
  unreadCount : Nat
deriving Repr, DecidableEq

/-- The fallback branch of GET /notifications taken when
isDatabaseAvailable is false: filter the canned mocks by user, type and
read flag, paginate with slice, and count the unread remainder. -/
def fallbackNotificationsResponse (q : NotificationQuery) : NotificationPage :=
  let f1 := match q.userId with
    | none => mockNotifications
    | some u => mockNotifications.filter fun n => n.userId == u
  let f2 := match q.qtype with
    | none => f1
    | some t => f1.filter fun n => n.ntype == t
  let f3 := match q.readFilter with
    | none => f2
    | some r => f2.filter fun n => n.read == r
  { notifications := (f3.drop q.offset).take q.limit,
    total := f3.length,
    unreadCount := (f3.filter fun n => !n.read).length }

/-- Evaluating one pass on a single subtask unfolds to two conditional
singleton emissions. -/
theorem slaEvalPass_singleton (now : ℚ) (log : List LogEvent) (fs : Subtask) :
    slaEvalPass now log [fs] =
      (bif slaWarningDue now fs &&
          !hasRecentEvent log now fs.taskId fs.subId "sla_alert" then
        [mkWarningEvent now fs] else []) ++
      (bif slaOverdueDue now fs &&
          !hasRecentEvent log now fs.taskId fs.subId "overdue_notification_sent" then
        [mkOverdueEvent now fs] else []) := by
  simp only [slaEvalPass, List.filter_singleton]
  cases hw : slaWarningDue now fs &&
      !hasRecentEvent log now fs.taskId fs.subId "sla_alert" <;>
    cases ho : slaOverdueDue now fs &&
        !hasRecentEvent log now fs.taskId fs.subId "overdue_notification_sent" <;>
      simp


/-- C4: for a Warning record storing original remaining minutes, the live
recomputation displays the ceiling of original minus exact elapsed
minutes while that value is positive, and once the exact remaining value
is at most zero it promotes the display to overdue with the floored
absolute remaining value and the floored elapsed minutes, leaving the
stored record untouched. -/
theorem live_warning_recompute_correct (orig : ℕ) (createdAt now : ℚ) :
    (0 < (orig : ℚ) - (now - createdAt) →
      liveWarnRecompute orig createdAt now =
        .remaining ⌈(orig : ℚ) - (now - createdAt)⌉) ∧
    ((orig : ℚ) - (now - createdAt) ≤ 0 →
      liveWarnRecompute orig createdAt now =
        .promoted ⌊|(orig : ℚ) - (now - createdAt)|⌋ ⌊now - createdAt⌋) := by
  constructor
  · intro h
    simp only [liveWarnRecompute]
    rw [if_neg (not_le.mpr h)]
    rw [max_eq_right (le_of_lt (Int.ceil_pos.mpr h))]
  · intro h
    simp only [liveWarnRecompute]
    rw [if_pos h]

/-- Witness for C4: with an original count of 15 minutes, five minutes
after creation the display shows ten minutes remaining, and sixteen
minutes after creation the record is promoted to overdue by one minute. -/
theorem live_warning_recompute_correct_witness :
    (0 < (15 : ℚ) - (5 - 0) ∧ liveWarnRecompute 15 0 5 = .remaining 10) ∧
    ((15 : ℚ) - (16 - 0) ≤ 0 ∧ liveWarnRecompute 15 0 16 = .promoted 1 16) := by
  constructor
  · refine ⟨by norm_num, ?_⟩
    have h := (live_warning_recompute_correct 15 0 5).1 (by norm_num)
    rw [h]
    norm_num
  · refine ⟨by norm_num, ?_⟩
    have h := (live_warning_recompute_correct 15 0 16).2 (by norm_num)
    rw [h]
    norm_num

/-- Counterexample for C5: at the creation instant itself (zero whole
minutes elapsed) the displayed age component is two minutes, not the
elapsed zero minutes the claim requires. -/
theorem live_overdue_minutes_ago_counterexample :
    (liveOverdueRecompute 5 0 0).2 = 2 ∧ ⌊(0 : ℚ) - 0⌋ = 0 := by
  constructor
  · norm_num [liveOverdueRecompute]
  · norm_num

/-- C5 amended: for an Overdue record with original count orig read when
the whole minutes elapsed equal e, the live recomputation displays
orig + e overdue minutes and an age of e plus two minutes. -/
theorem live_overdue_recompute_correct (orig : ℕ) (createdAt now : ℚ) (e : ℤ)
    (h1 : (e : ℚ) ≤ now - createdAt) (h2 : now - createdAt < e + 1) :
    liveOverdueRecompute orig createdAt now = ((orig : ℤ) + e, e + 2) := by
  have hf : ⌊now - createdAt⌋ = e := Int.floor_eq_iff.mpr ⟨h1, by linarith⟩
  simp [liveOverdueRecompute, hf]

/-- Witness for C5 amended: an overdue record of seven minutes read five
and a half minutes later displays twelve overdue minutes and an age of
seven minutes. -/
theorem live_overdue_recompute_correct_witness :
    ((5 : ℚ) ≤ (11 / 2 : ℚ) - 0 ∧ (11 / 2 : ℚ) - 0 < 5 + 1) ∧
    liveOverdueRecompute 7 0 (11 / 2) = (12, 7) := by
  refine ⟨⟨by norm_num, by norm_num⟩, ?_⟩
  have h := live_overdue_recompute_correct 7 0 (11 / 2) 5 (by norm_num) (by norm_num)
  simpa using h

/-- Counterexample for C6: an event with action tag sla_alert whose detail
contains the word overdue is classified sla_warning, because the CASE
tests every action tag before any detail substring; the claim predicted
sla_overdue. -/
theorem classifier_order_counterexample :
    detailHas "Task is overdue" "overdue" = true ∧
    classifyType "sla_alert" "Task is overdue" = "sla_warning" ∧
    classifyType "sla_alert" "Task is overdue" ≠ "sla_overdue" := by
  refine ⟨by decide, by decide, by decide⟩

/-- C6 amended: the CASE evaluates the action-tag arms before the
detail-substring arms, so an sla_alert event gets type sla_warning
whatever its detail says, while a detail containing overdue still drives
the separately computed priority to critical. -/
theorem classifier_sla_alert_tag_first (details : String) :
    classifyType "sla_alert" details = "sla_warning" ∧
    (detailHas details "overdue" = true →
      classifyPriority "sla_alert" details = "critical") := by
  constructor
  · simp [classifyType]
  · intro h
    simp [classifyPriority, h]

/-- Witness for C6 amended: instantiated at a detail that does contain the
word overdue. -/
theorem classifier_sla_alert_tag_first_witness :
    detailHas "subtask overdue by 4 min" "overdue" = true ∧
    classifyPriority "sla_alert" "subtask overdue by 4 min" = "critical" :=
  ⟨by decide, (classifier_sla_alert_tag_first "subtask overdue by 4 min").2 (by decide)⟩

/-- Counterexample for C7: a delay_reported event is given priority
critical by the first arm of the priority CASE, not the medium the claim
requires. -/
theorem delay_reported_priority_counterexample :
    classifyPriority "delay_reported" "Process delayed" = "critical" ∧
    classifyPriority "delay_reported" "Process delayed" ≠ "medium" := by
  refine ⟨by decide, by decide⟩

/-- C7 amended: for every event whose action tag is delay_reported,
classification yields type task_delayed and priority critical, regardless
of the detail text. -/
theorem delay_reported_classification (details : String) :
    classifyType "delay_reported" details = "task_delayed" ∧
    classifyPriority "delay_reported" details = "critical" := by
  constructor
  · simp [classifyType]
  · simp [classifyPriority]

/-- Counterexample for C8: a notification of derived type escalation with
nonempty manager and member lists does not surface its escalation
managers, contradicting the claimed if and only if. -/
theorem escalation_type_not_surfaced_counterexample :
    showsEscalationManagers
        { ntype := "escalation", escalationManagers := ["Harini NL"],
          membersList := ["Sanjay Kumar", "Harini NL"] } = false := by
  decide

/-- C8 amended: escalation managers are surfaced exactly when the derived
type is sla_overdue and both the escalation-manager list and the members
list are nonempty; in particular escalation-type notifications never
surface them. -/
theorem escalation_managers_surfaced_iff (n : NotificationView) :
    showsEscalationManagers n = true ↔
      n.ntype = "sla_overdue" ∧ n.escalationManagers ≠ [] ∧ n.membersList ≠ [] := by
  simp only [showsEscalationManagers, Bool.and_eq_true, Bool.not_eq_true',
    List.isEmpty_eq_false, beq_iff_eq]
  tauto

/-- Counterexample for C9: with the backing store unavailable and no
filters, GET /notifications answers with the three canned mock
notifications, not with an empty result set. -/
theorem store_unavailable_counterexample :
    (fallbackNotificationsResponse
        { userId := none, qtype := none, readFilter := none,
          limit := 50, offset := 0 }).notifications = mockNotifications ∧
    mockNotifications ≠ [] := by
  refine ⟨rfl, by decide⟩

/-- C9 amended: when the backing store is unavailable the GET route does
not crash: it degrades to the canned mock list filtered by the query, an
unfiltered default query receiving all three mocks with unread count two,
and no query ever receiving more rows than the three mocks. -/
theorem store_unavailable_returns_mocks :
    fallbackNotificationsResponse
        { userId := none, qtype := none, readFilter := none,
          limit := 50, offset := 0 } =
      { notifications := mockNotifications, total := 3, unreadCount := 2 } ∧
    ∀ q : NotificationQuery,
      (fallbackNotificationsResponse q).total ≤ mockNotifications.length := by
  constructor
  · rfl
  · intro q
    simp only [fallbackNotificationsResponse]
    rcases q with ⟨u, t, r, l, o⟩
    cases u <;> cases t <;> cases r <;>
      simp <;> exact (List.length_filter_le _ _)

/-- A row inserted for a warning is never an Overdue event of any unit. -/
theorem isOverdueFor_mkWarningEvent (fs gs : Subtask) (now : ℚ) :
    isOverdueFor fs (mkWarningEvent now gs) = false := by
  simp [isOverdueFor, mkWarningEvent, matchesUnitAction]

/-- A row inserted for an overdue notification is never a Warning event of
any unit. -/
theorem isWarningFor_mkOverdueEvent (fs gs : Subtask) (now : ℚ) :
    isWarningFor fs (mkOverdueEvent now gs) = false := by
  simp [isWarningFor, mkOverdueEvent, matchesUnitAction]

/-- C2 amended: for an active auto-notified subtask with status pending or
in_progress whose unit has no Overdue event in the lookback window, an
evaluator pass emits an Overdue event exactly when more than 15 minutes
have passed since the scheduled start; the SLA budget plays no part in
the decision. -/
theorem sla_overdue_emission_iff (now t : ℚ) (log : List LogEvent) (fs : Subtask)
    (hst : fs.startTime = some t) (ha : fs.autoNotify = true)
    (hs : slaStatusOk fs = true) (hact : fs.taskActive = true)
    (hded : hasRecentEvent log now fs.taskId fs.subId "overdue_notification_sent" = false) :
    emitsOverdueFor (slaEvalPass now log [fs]) fs = true ↔ 15 < now - t := by
  rw [emitsOverdueFor, slaEvalPass_singleton, hded]
  simp only [Bool.not_false, Bool.and_true, List.any_append]
  have hside : ∀ b : Bool,
      (bif b && !hasRecentEvent log now fs.taskId fs.subId "sla_alert" then
        [mkWarningEvent now fs] else []).any (isOverdueFor fs) = false := by
    intro b
    cases b && !hasRecentEvent log now fs.taskId fs.subId "sla_alert" <;>
      simp [isOverdueFor_mkWarningEvent]
  rw [hside]
  simp only [Bool.false_or]
  simp only [slaOverdueDue, hst, ha, hs, hact, Bool.true_and, Bool.and_true]
  by_cases hlt : t < now - 15
  · simp only [decide_eq_true hlt, cond_true]
    simp [isOverdueFor, mkOverdueEvent, matchesUnitAction]
    linarith
  · simp only [decide_eq_false hlt, cond_false]
    simp only [List.any_nil, Bool.false_eq_true, false_iff, not_lt]
    linarith

/-- Witness for C2 amended: a subtask scheduled at minute 0 with a 60
minute budget is emitted as Overdue at minute 30. -/
theorem sla_overdue_emission_iff_witness :
    emitsOverdueFor
        (slaEvalPass 30 [] [⟨1, 1, some 0, true, "pending", true, 60, some 0⟩])
        ⟨1, 1, some 0, true, "pending", true, 60, some 0⟩ = true :=
  (sla_overdue_emission_iff 30 0 []
      ⟨1, 1, some 0, true, "pending", true, 60, some 0⟩
      rfl rfl rfl rfl rfl).mpr (by norm_num)

/-- Counterexample for C2: at minute 30 the spec phase (deadline equal to
scheduled start plus the 60 minute budget, overdue when remaining is at
most zero) is still off, yet the evaluator emits an Overdue event for the
unit, because the code compares against the scheduled start plus a fixed
15 minutes. -/
theorem sla_overdue_not_budget_relative_counterexample :
    specOverduePhase 30 ⟨1, 1, some 0, true, "pending", true, 60, some 0⟩ = false ∧
    emitsOverdueFor
        (slaEvalPass 30 [] [⟨1, 1, some 0, true, "pending", true, 60, some 0⟩])
        ⟨1, 1, some 0, true, "pending", true, 60, some 0⟩ = true := by
  constructor
  · simp only [specOverduePhase]
    norm_num
  · rw [emitsOverdueFor, slaEvalPass_singleton]
    have hw : slaWarningDue 30 ⟨1, 1, some 0, true, "pending", true, 60, some 0⟩ = false := by
      simp only [slaWarningDue, slaStatusOk]
      norm_num
    have ho : slaOverdueDue 30 ⟨1, 1, some 0, true, "pending", true, 60, some 0⟩ = true := by
      simp only [slaOverdueDue, slaStatusOk]
      norm_num
    rw [hw, ho]
    simp [hasRecentEvent, isOverdueFor, mkOverdueEvent, matchesUnitAction]

/-- C3 amended: for an active auto-notified subtask with status pending or
in_progress whose unit has no Warning event in the lookback window, an
evaluator pass emits a Warning event exactly when the scheduled start
lies strictly inside the next 15 minutes (the warning anticipates the
scheduled start, not the deadline, and the SLA budget is unused); the
emitted row is exactly the sla_alert row whose detail renders the rounded
minutes until the start. -/
theorem sla_warning_emission_iff (now t : ℚ) (log : List LogEvent) (fs : Subtask)
    (hst : fs.startTime = some t) (ha : fs.autoNotify = true)
    (hs : slaStatusOk fs = true) (hact : fs.taskActive = true)
    (hded : hasRecentEvent log now fs.taskId fs.subId "sla_alert" = false) :
    (emitsWarningFor (slaEvalPass now log [fs]) fs = true ↔ now < t ∧ t ≤ now + 15) ∧
    (now < t → t ≤ now + 15 →
      (slaEvalPass now log [fs]).filter (isWarningFor fs) = [mkWarningEvent now fs]) := by
  have hside : ∀ b : Bool,
      ((bif b && !hasRecentEvent log now fs.taskId fs.subId "overdue_notification_sent" then
        [mkOverdueEvent now fs] else []).filter (isWarningFor fs)) = [] := by
    intro b
    cases b && !hasRecentEvent log now fs.taskId fs.subId "overdue_notification_sent" <;>
      simp [isWarningFor_mkOverdueEvent]
  constructor
  · rw [emitsWarningFor, slaEvalPass_singleton, hded]
    simp only [Bool.not_false, Bool.and_true, List.any_append]
    have hside2 : ∀ b : Bool,
        (bif b && !hasRecentEvent log now fs.taskId fs.subId "overdue_notification_sent" then
          [mkOverdueEvent now fs] else []).any (isWarningFor fs) = false := by
      intro b
      cases b && !hasRecentEvent log now fs.taskId fs.subId "overdue_notification_sent" <;>
        simp [isWarningFor_mkOverdueEvent]
    rw [hside2]
    simp only [Bool.or_false]
    simp only [slaWarningDue, hst, ha, hs, hact, Bool.true_and]
    by_cases h1 : now < t
    · by_cases h2 : t ≤ now + 15
      · simp only [decide_eq_true h1, decide_eq_true h2, Bool.and_self, cond_true]
        simp [isWarningFor, mkWarningEvent, matchesUnitAction, h1, h2]
      · simp [h1, h2]
    · simp [h1]
  · intro h1 h2
    rw [slaEvalPass_singleton, hded]
    simp only [Bool.not_false, Bool.and_true, List.filter_append]
    rw [hside]
    simp only [List.append_nil]
    simp only [slaWarningDue, hst, ha, hs, hact, Bool.true_and,
      decide_eq_true h1, decide_eq_true h2, Bool.and_self, cond_true]
    simp [isWarningFor, mkWarningEvent, matchesUnitAction]

/-- Witness for C3 amended: a subtask scheduled for minute 960 (16:00),
evaluated at minute 946 (15:46), emits exactly one Warning row whose
detail announces 14 minutes remaining. -/
theorem sla_warning_emission_iff_witness :
    (946 : ℚ) < 960 ∧ (960 : ℚ) ≤ 946 + 15 ∧
    (slaEvalPass 946 [] [⟨16, 29, some 960, true, "pending", true, 60, some 960⟩]).filter
        (isWarningFor ⟨16, 29, some 960, true, "pending", true, 60, some 960⟩) =
      [{ action := "sla_alert", taskId := 16, subId := 29,
         details := "SLA Warning - 14 min remaining • need to start", timestamp := 946 }] := by
  refine ⟨by norm_num, by norm_num, ?_⟩
  rw [(sla_warning_emission_iff 946 960 []
      ⟨16, 29, some 960, true, "pending", true, 60, some 960⟩
      rfl rfl rfl rfl rfl).2 (by norm_num) (by norm_num)]
  have h14 : roundQ ((960 : ℚ) - 946) = 14 := by norm_num [roundQ]
  simp [mkWarningEvent, warningMessage, h14]
  rfl

/-- Counterexample for C3: at minute 1006 (16:46) the spec phase Warning
holds for a subtask scheduled at 960 with a 60 minute budget (14 minutes
to the spec deadline 1020), yet the evaluator emits no Warning event,
because the code warns only before the scheduled start itself. -/
theorem sla_warning_not_deadline_relative_counterexample :
    specWarningPhase 1006 ⟨16, 29, some 960, true, "pending", true, 60, some 960⟩ = true ∧
    emitsWarningFor
        (slaEvalPass 1006 [] [⟨16, 29, some 960, true, "pending", true, 60, some 960⟩])
        ⟨16, 29, some 960, true, "pending", true, 60, some 960⟩ = false := by
  constructor
  · simp only [specWarningPhase]
    norm_num
  · rw [emitsWarningFor, slaEvalPass_singleton]
    have hw : slaWarningDue 1006 ⟨16, 29, some 960, true, "pending", true, 60, some 960⟩ = false := by
      simp only [slaWarningDue, slaStatusOk]
      norm_num
    rw [hw]
    simp only [Bool.false_and, cond_false, List.nil_append, List.any_append]
    cases slaOverdueDue 1006 ⟨16, 29, some 960, true, "pending", true, 60, some 960⟩ &&
        !hasRecentEvent [] 1006 16 29 "overdue_notification_sent" <;>
      simp [isWarningFor_mkOverdueEvent]

/-- For a started subtask the service evaluator reports overdue exactly
when the clock has passed started_at plus the budget. -/
theorem svcOverdueDue_char (now start B : ℚ) :
    svcOverdueDue now ⟨1, 1, some start, true, "pending", true, B, some start⟩ =
      decide (start + B < now) := by
  have hsok : slaStatusOk ⟨1, 1, some start, true, "pending", true, B, some start⟩ = true := rfl
  simp only [svcOverdueDue, svcMinutesRemaining, svcDueTime, hsok, Bool.true_and]
  have h : (⌊start + B - now⌋ < 0) ↔ (start + B < now) := by
    rw [Int.floor_lt]
    push_cast
    constructor <;> intro <;> linarith
  exact decide_eq_decide.mpr h

/-- The SQL evaluator reports overdue exactly when the clock has passed
the scheduled start plus a fixed 15 minutes. -/
theorem slaOverdueDue_char (now start B : ℚ) :
    slaOverdueDue now ⟨1, 1, some start, true, "pending", true, B, some start⟩ =
      decide (start + 15 < now) := by
  have hsok : slaStatusOk ⟨1, 1, some start, true, "pending", true, B, some start⟩ = true := rfl
  simp only [slaOverdueDue, hsok, Bool.true_and]
  have h : (start < now - 15) ↔ (start + 15 < now) := by
    constructor <;> intro <;> linarith
  exact decide_eq_decide.mpr h

/-- Counterexample for C10: a subtask scheduled and started at minute 0
with a 60 minute budget, observed at minute 30: the SQL function reports
it Overdue while the alert service does not, so the two evaluators do not
make the same phase decision. -/
theorem evaluator_disagreement_counterexample :
    slaOverdueDue 30 ⟨1, 1, some 0, true, "pending", true, 60, some 0⟩ = true ∧
    svcOverdueDue 30 ⟨1, 1, some 0, true, "pending", true, 60, some 0⟩ = false := by
  constructor
  · rw [slaOverdueDue_char]
    norm_num
  · rw [svcOverdueDue_char]
    norm_num

/-- C10 amended: for subtasks that start exactly at their scheduled start,
the two evaluators agree on the Overdue decision at every instant
precisely when the SLA budget is 15 minutes, and even then the Warning
decisions differ: at the scheduled start itself the service warns (15
floor-minutes remain) while the SQL function does not (it warns only
strictly before the start). -/
theorem evaluators_overdue_agree_iff (start B : ℚ) :
    ((∀ now : ℚ,
        svcOverdueDue now ⟨1, 1, some start, true, "pending", true, B, some start⟩ =
          slaOverdueDue now ⟨1, 1, some start, true, "pending", true, B, some start⟩) ↔
      B = 15) ∧
    (svcWarningDue start ⟨1, 1, some start, true, "pending", true, 15, some start⟩ = true ∧
      slaWarningDue start ⟨1, 1, some start, true, "pending", true, 15, some start⟩ = false) := by
  refine ⟨⟨?_, ?_⟩, ?_, ?_⟩
  · intro h
    by_contra hne
    have h1 := h (start + (B + 15) / 2)
    rw [svcOverdueDue_char, slaOverdueDue_char, decide_eq_decide] at h1
    rcases lt_or_gt_of_ne hne with hB | hB
    · have hP : start + B < start + (B + 15) / 2 := by linarith
      have hQ : ¬ (start + 15 < start + (B + 15) / 2) := by
        intro hx
        linarith
      exact hQ (h1.mp hP)
    · have hQ : start + 15 < start + (B + 15) / 2 := by linarith
      have hP : ¬ (start + B < start + (B + 15) / 2) := by
        intro hx
        linarith
      exact hP (h1.mpr hQ)
  · intro hB now
    rw [svcOverdueDue_char, slaOverdueDue_char, hB]
  · have hsok : slaStatusOk ⟨1, 1, some start, true, "pending", true, 15, some start⟩ = true := rfl
    have hm : svcMinutesRemaining start
        ⟨1, 1, some start, true, "pending", true, 15, some start⟩ = 15 := by
      simp only [svcMinutesRemaining, svcDueTime]
      rw [show start + 15 - start = (15 : ℚ) from by ring]
      norm_num
    simp only [svcWarningDue, hsok, hm, Bool.true_and]
    norm_num
  · simp only [slaWarningDue]
    simp [lt_irrefl]

/-- The warning row of a unit matches isWarningFor for that unit. -/
theorem isWarningFor_mkWarningEvent (fs : Subtask) (now : ℚ) :
    isWarningFor fs (mkWarningEvent now fs) = true := by
  simp [isWarningFor, mkWarningEvent, matchesUnitAction]

/-- A unit inside the warning window cannot simultaneously satisfy the
overdue branch: the scheduled start cannot lie both ahead of the clock
and more than 15 minutes behind it. -/
theorem slaWarningDue_not_overdue (now : ℚ) (fs : Subtask)
    (h : slaWarningDue now fs = true) : slaOverdueDue now fs = false := by
  rcases hst : fs.startTime with _ | t
  · simp [slaOverdueDue, hst]
  · simp only [slaWarningDue, hst] at h
    simp only [slaOverdueDue, hst]
    simp only [Bool.and_eq_true, decide_eq_true_eq] at h
    have hlt : now < t := h.1.2
    have hnot : ¬ (t < now - 15) := by linarith
    simp [decide_eq_false hnot]

/-- C1: for a unit in the Warning phase at tick T1 whose lookback window
holds no Warning event yet, running the evaluator at T1 and again at a
later tick T2 inside the one-hour dedup window leaves exactly one active
Warning event for the unit inside the window: the first tick emits it and
the dedup lookback suppresses the second. -/
theorem warning_dedup_exactly_one (fs : Subtask) (log0 : List LogEvent) (T1 T2 : ℚ)
    (hw : slaWarningDue T1 fs = true)
    (h0 : warningsInWindow log0 T1 fs = 0)
    (h12 : T1 < T2) (hwin : T2 < T1 + 60) :
    warningsInWindow (autoSync T2 (autoSync T1 log0 [fs]) [fs]) T2 fs = 1 := by
  have hforall : ∀ e ∈ log0,
      ¬((isWarningFor fs e && decide (T1 - 60 < e.timestamp)) = true) := by
    rw [warningsInWindow] at h0
    exact List.filter_eq_nil_iff.mp (List.length_eq_zero.mp h0)
  have hrec1 : hasRecentEvent log0 T1 fs.taskId fs.subId "sla_alert" = false := by
    rw [hasRecentEvent, List.any_eq_false]
    intro e he
    simpa [isWarningFor] using hforall e he
  have ho1 : slaOverdueDue T1 fs = false := slaWarningDue_not_overdue T1 fs hw
  have hpass1 : slaEvalPass T1 log0 [fs] = [mkWarningEvent T1 fs] := by
    rw [slaEvalPass_singleton, hw, hrec1, ho1]
    simp
  have hlog1 : autoSync T1 log0 [fs] = log0 ++ [mkWarningEvent T1 fs] := by
    rw [autoSync, hpass1]
  have hrec2 : hasRecentEvent (log0 ++ [mkWarningEvent T1 fs]) T2 fs.taskId fs.subId
      "sla_alert" = true := by
    rw [hasRecentEvent, List.any_eq_true]
    refine ⟨mkWarningEvent T1 fs, by simp, ?_⟩
    simp only [matchesUnitAction, mkWarningEvent, Bool.and_eq_true, beq_self_eq_true,
      decide_eq_true_eq]
    exact ⟨⟨⟨trivial, trivial⟩, trivial⟩, by linarith⟩
  have hpass2 : ∀ e ∈ slaEvalPass T2 (log0 ++ [mkWarningEvent T1 fs]) [fs],
      isWarningFor fs e = false := by
    intro e he
    rw [slaEvalPass_singleton, hrec2] at he
    simp only [Bool.not_true, Bool.and_false, cond_false, List.nil_append] at he
    rcases hcond : slaOverdueDue T2 fs &&
        !hasRecentEvent (log0 ++ [mkWarningEvent T1 fs]) T2 fs.taskId fs.subId
          "overdue_notification_sent" with _ | _
    · rw [hcond] at he
      simp at he
    · rw [hcond] at he
      simp only [cond_true, List.mem_singleton] at he
      rw [he]
      exact isWarningFor_mkOverdueEvent fs fs T2
  rw [autoSync, hlog1, warningsInWindow, List.filter_append, List.filter_append,
    List.length_append, List.length_append]
  have hc0 : (log0.filter fun e => isWarningFor fs e && decide (T2 - 60 < e.timestamp)) = [] := by
    rw [List.filter_eq_nil_iff]
    intro e he hcontra
    rw [Bool.and_eq_true] at hcontra
    obtain ⟨hwarn, htime⟩ := hcontra
    have h1 := hforall e he
    rw [hwarn, Bool.true_and] at h1
    rw [decide_eq_true_eq] at htime
    have h3 : e.timestamp ≤ T1 - 60 := by
      by_contra hx
      exact h1 (by rw [decide_eq_true_eq]; exact not_le.mp hx)
    linarith
  have hc1 : (([mkWarningEvent T1 fs]).filter fun e =>
      isWarningFor fs e && decide (T2 - 60 < e.timestamp)) = [mkWarningEvent T1 fs] := by
    have hp : (isWarningFor fs (mkWarningEvent T1 fs) &&
        decide (T2 - 60 < (mkWarningEvent T1 fs).timestamp)) = true := by
      rw [isWarningFor_mkWarningEvent, Bool.true_and]
      rw [decide_eq_true_eq]
      show T2 - 60 < T1
      linarith
    rw [List.filter_singleton, hp]
    rfl
  have hc2 : ((slaEvalPass T2 (log0 ++ [mkWarningEvent T1 fs]) [fs]).filter fun e =>
      isWarningFor fs e && decide (T2 - 60 < e.timestamp)) = [] := by
    rw [List.filter_eq_nil_iff]
    intro e he
    simp [hpass2 e he]
  rw [hc0, hc1, hc2]
  simp

/-- Witness for C1: a subtask scheduled for minute 960, evaluated at
minutes 950 and 990 over an empty log, ends with exactly one Warning
event in the window. -/
theorem warning_dedup_exactly_one_witness :
    warningsInWindow
        (autoSync 990
          (autoSync 950 [] [⟨1, 1, some 960, true, "pending", true, 60, some 960⟩])
          [⟨1, 1, some 960, true, "pending", true, 60, some 960⟩])
        990 ⟨1, 1, some 960, true, "pending", true, 60, some 960⟩ = 1 :=
  warning_dedup_exactly_one ⟨1, 1, some 960, true, "pending", true, 60, some 960⟩ [] 950 990
    (by simp only [slaWarningDue, slaStatusOk]; norm_num) rfl (by norm_num) (by norm_num)

/-- Witness for C7 amended: instantiated at a concrete detail text. -/
theorem delay_reported_classification_witness :
    classifyType "delay_reported" "external dependency slip" = "task_delayed" ∧
    classifyPriority "delay_reported" "external dependency slip" = "critical" :=
  delay_reported_classification "external dependency slip"

/-- Witness for C8 amended: a concrete sla_overdue notification with
nonempty lists does surface the escalation managers. -/
theorem escalation_managers_surfaced_iff_witness :
    showsEscalationManagers
        { ntype := "sla_overdue", escalationManagers := ["Vishal S"],
          membersList := ["Sanjay Kumar"] } = true :=
  (escalation_managers_surfaced_iff
      { ntype := "sla_overdue", escalationManagers := ["Vishal S"],
        membersList := ["Sanjay Kumar"] }).mpr
    ⟨rfl, by decide, by decide⟩

/-- Witness for C9 amended: a filtered query also stays within the three
canned mocks. -/
theorem store_unavailable_returns_mocks_witness :
    (fallbackNotificationsResponse
        { userId := some 1, qtype := some "overdue", readFilter := none,
          limit := 10, offset := 0 }).total ≤ mockNotifications.length :=
  store_unavailable_returns_mocks.2
    { userId := some 1, qtype := some "overdue", readFilter := none,
      limit := 10, offset := 0 }

/-- Witness for C10 amended: with a 15 minute budget the two overdue
decisions agree at a concrete instant. -/
theorem evaluators_overdue_agree_iff_witness :
    svcOverdueDue 30 ⟨1, 1, some 0, true, "pending", true, 15, some 0⟩ =
      slaOverdueDue 30 ⟨1, 1, some 0, true, "pending", true, 15, some 0⟩ :=
  ((evaluators_overdue_agree_iff 0 15).1.mpr rfl) 30
